import Mathlib

/-!
A shallow embedding of `custom_components/openevse/__init__.py` from the
`ausil/openevse` Home Assistant integration, together with theorems checking
its specification.

Modelling conventions:
* Python values flowing through this module are modelled by `Val`
  (`None`, strings, integers).
* Python exceptions are modelled by `PyExc`; a fallible computation returns
  `Except PyExc α` (an `Except.error` is a raised exception).
* The external `openevsehttp.OpenEVSE` client is opaque to this module: a
  `Charger` is a record of the operations the module performs on it
  (`update()` and attribute lookup), each of which may raise.  The library
  constructor is a parameter `OpenEVSELib`.
* Python dicts used by the module are association lists `List (String × Val)`
  (`Dict`); `dict.get(k)` returning `None` for a missing key is `dictGet`.
-/

namespace OpenEVSEComponent

/-- A Python value as used by this module: `None`, a string, or an integer. -/
inductive Val where
  | vnone : Val
  | vstr : String → Val
  | vint : Int → Val
deriving DecidableEq, Repr

/-- A raised Python exception, tagged by the classes this module
distinguishes in its `except` clauses. -/
inductive PyExc where
  | requestException : String → PyExc
  | valueError : String → PyExc
  | keyError : String → PyExc
  | attributeError : String → PyExc
  | otherExc : String → PyExc
deriving DecidableEq, Repr

/-- Membership in the tuple `(RequestException, ValueError, KeyError)` caught
by the per-sensor `except` clause inside `get_sensors`. -/
def caughtInSensorLoop : PyExc → Bool
  | .requestException _ => true
  | .valueError _ => true
  | .keyError _ => true
  | _ => false

/-- A Python dict with string keys, as an association list. -/
abbrev Dict := List (String × Val)

/-- `d.get(k)`: the value stored under `k`, or `None` when absent. -/
def dictGet (d : Dict) (k : String) : Val :=
  match d.lookup k with
  | some v => v
  | none => Val.vnone

/-- The external `openevsehttp.OpenEVSE` client object, seen through the
operations this module performs on it: `update()` and attribute lookup
(`getattr` / property access), each of which may raise. -/
structure Charger where
  update : Except PyExc Unit
  getattr : String → Except PyExc Val

/-- The external `openevsehttp` library: its `OpenEVSE(host, user, pwd)`
constructor.  The module treats it as opaque, so it is a parameter. -/
structure OpenEVSELib where
  OpenEVSE : Val → Val → Val → Charger

/-- `homeassistant.const.CONF_HOST`. -/
def CONF_HOST : String := "host"

/-- `homeassistant.const.CONF_USERNAME`. -/
def CONF_USERNAME : String := "username"

/-- `homeassistant.const.CONF_PASSWORD`. -/
def CONF_PASSWORD : String := "password"

/-- `.const.CONF_NAME` (re-exported `homeassistant.const.CONF_NAME`). -/
def CONF_NAME : String := "name"

/-- A Home Assistant config entry as used by this module: its `data` and
`options` dicts and its `entry_id`. -/
structure ConfigEntry where
  data : Dict
  options : Dict
  entry_id : String
deriving DecidableEq, Repr

/-- The module-level `states` dict: charger status code → description. -/
def states : List (Nat × String) :=
  [(0, "unknown"),
   (1, "not connected"),
   (2, "connected"),
   (3, "charging"),
   (4, "vent required"),
   (5, "diode check failed"),
   (6, "gfci fault"),
   (7, "no ground"),
   (8, "stuck relay"),
   (9, "gfci self-test failure"),
   (10, "over temperature"),
   (254, "sleeping"),
   (255, "disabled")]

/-- The exception classes raised by `send_command`: `InvalidValue` and
`CommandFailed`. -/
inductive CommandError where
  | InvalidValue : CommandError
  | CommandFailed : CommandError
deriving DecidableEq, Repr

/-- `send_command(handler, command)`: the handler's `send_command` returns the
pair `(cmd, response)`; the function returns `None`, raises `InvalidValue`, or
raises `CommandFailed`. -/
def send_command (handler : String → String × String) (command : String) :
    Except CommandError Unit :=
  let r := handler command
  if r.1 == command then
    if r.2 == "$NK^21" then Except.error CommandError.InvalidValue
    else Except.ok ()
  else Except.error CommandError.CommandFailed

/-- `connect(host, username=None, password=None)`: constructs the client,
passing the arguments through unchanged. -/
def connect (lib : OpenEVSELib) (host : Val)
    (username : Val := Val.vnone) (password : Val := Val.vnone) : Charger :=
  lib.OpenEVSE host username password

/-- The body of `get_firmware` from the constructed client on: `update()`
guarded by `except Exception`, then the two firmware attribute reads. -/
def get_firmware_from_charger (charger : Charger) : Except PyExc (Val × Val) :=
  match charger.update with
  | Except.error _ => Except.ok (Val.vstr "", Val.vstr "")
  | Except.ok _ =>
    match charger.getattr "wifi_firmware" with
    | Except.error e => Except.error e
    | Except.ok w =>
      match charger.getattr "openevse_firmware" with
      | Except.error e => Except.error e
      | Except.ok o => Except.ok (w, o)

/-- `get_firmware(config)`: reads host/username/password from the entry data,
constructs the client, and returns `("", "")` when `update()` raises. -/
def get_firmware (lib : OpenEVSELib) (config : ConfigEntry) :
    Except PyExc (Val × Val) :=
  let host := dictGet config.data CONF_HOST
  let username := dictGet config.data CONF_USERNAME
  let password := dictGet config.data CONF_PASSWORD
  let charger := lib.OpenEVSE host username password
  match charger.update with
  | Except.error _ => Except.ok (Val.vstr "", Val.vstr "")
  | Except.ok _ =>
    match charger.getattr "wifi_firmware" with
    | Except.error e => Except.error e
    | Except.ok w =>
      match charger.getattr "openevse_firmware" with
      | Except.error e => Except.error e
      | Except.ok o => Except.ok (w, o)

/-- Modelled from the spec: an entry of the `SENSOR_TYPES` table imported from
`.const`, which is not part of the sources ("Sensor keys defined in an
external constants table, not shown here"); the module only reads its `.key`
attribute, so it is a record holding that key. -/
structure SensorDescription where
  key : String
deriving DecidableEq, Repr

/-- The `for sensor in SENSOR_TYPES` loop of `get_sensors`: each iteration
special-cases `"current_power"` to `None`, otherwise reads
`getattr(charger, SENSOR_TYPES[sensor].key)`; `RequestException`,
`ValueError` and `KeyError` are caught and the sensor skipped, any other
exception propagates. -/
def sensorsLoop (charger : Charger) :
    List (String × SensorDescription) → Dict → Except PyExc Dict
  | [], data => Except.ok data
  | (sensor, desc) :: rest, data =>
    if sensor == "current_power" then
      sensorsLoop charger rest (data ++ [(sensor, Val.vnone)])
    else
      match charger.getattr desc.key with
      | Except.ok v => sensorsLoop charger rest (data ++ [(sensor, v)])
      | Except.error e =>
        if caughtInSensorLoop e then sensorsLoop charger rest data
        else Except.error e

/-- The body of `get_sensors` from the constructed client on: `update()`
guarded by `except Exception` (returning `{}`), then the per-sensor loop. -/
def get_sensors_from_charger (sensor_types : List (String × SensorDescription))
    (charger : Charger) : Except PyExc Dict :=
  match charger.update with
  | Except.error _ => Except.ok []
  | Except.ok _ => sensorsLoop charger sensor_types []

/-- `get_sensors(hass, config)`: reads host/username/password from the entry
data, constructs the client, returns `{}` when `update()` raises, and
otherwise runs the per-sensor loop.  `SENSOR_TYPES` is the table imported
from `.const` (a parameter here, see `SensorDescription`); the unused `hass`
argument is omitted. -/
def get_sensors (sensor_types : List (String × SensorDescription))
    (lib : OpenEVSELib) (config : ConfigEntry) : Except PyExc Dict :=
  let host := dictGet config.data CONF_HOST
  let username := dictGet config.data CONF_USERNAME
  let password := dictGet config.data CONF_PASSWORD
  let charger := lib.OpenEVSE host username password
  match charger.update with
  | Except.error _ => Except.ok []
  | Except.ok _ => sensorsLoop charger sensor_types []

/-- `update_listener(hass, config_entry)`: returns the (possibly updated)
entry and whether `async_reload` was triggered.  When `data == options` it
returns early; otherwise `async_update_entry` replaces `data` with a copy of
`options` and the entry is reloaded. -/
def update_listener (config_entry : ConfigEntry) : ConfigEntry × Bool :=
  if config_entry.data == config_entry.options then (config_entry, false)
  else ({ config_entry with data := config_entry.options }, true)

/-- `datetime.timedelta(seconds=n)`, as used by the coordinator. -/
structure Timedelta where
  seconds : Nat
deriving DecidableEq, Repr

/-- Rendering of a `Val` inside an f-string (`str()` of the value). -/
def pyStr : Val → String
  | Val.vnone => "None"
  | Val.vstr s => s
  | Val.vint n => toString n

/-- The state an `OpenEVSEUpdateCoordinator.__init__` call establishes:
`self.interval`, `self.name`, `self.config`, and the `update_interval`
passed to the host `DataUpdateCoordinator`. -/
structure Coordinator where
  interval : Timedelta
  name : String
  config : ConfigEntry
  update_interval : Timedelta
deriving DecidableEq, Repr

/-- `OpenEVSEUpdateCoordinator.__init__(self, hass, interval, config)`:
stores `timedelta(seconds=interval)` and passes it on as `update_interval`. -/
def coordinatorInit (interval : Nat) (config : ConfigEntry) : Coordinator :=
  let i : Timedelta := { seconds := interval }
  { interval := i,
    name := "OpenEVSE (" ++ pyStr (dictGet config.data CONF_NAME) ++ ")",
    config := config,
    update_interval := i }

/-- The coordinator construction inside `async_setup_entry`:
`interval = 10; coordinator = OpenEVSEUpdateCoordinator(hass, interval,
config_entry)`. -/
def async_setup_entry_coordinator (config_entry : ConfigEntry) : Coordinator :=
  let interval := 10
  coordinatorInit interval config_entry

/-- The host-framework `UpdateFailed` exception raised by
`_async_update_data`, wrapping the underlying error. -/
inductive CoordinatorError where
  | UpdateFailed : PyExc → CoordinatorError
deriving DecidableEq, Repr

/-- `OpenEVSEUpdateCoordinator._async_update_data`: awaits the executor job
running `get_sensors`; any exception it raises is re-raised as
`UpdateFailed(error)`, a normal result is returned unchanged. -/
def coordinator_async_update_data
    (sensor_types : List (String × SensorDescription))
    (lib : OpenEVSELib) (config : ConfigEntry) : Except CoordinatorError Dict :=
  match get_sensors sensor_types lib config with
  | Except.error e => Except.error (CoordinatorError.UpdateFailed e)
  | Except.ok d => Except.ok d

/-- `hass.data[DOMAIN]`: entry_id → the stored record
`{COORDINATOR: coordinator}` (the record reduced to its single
coordinator value). -/
abbrev DomainStore := List (String × Coordinator)

/-- `d.pop(k)` on `hass.data[DOMAIN]` with no default: removes the key
(keeping the order of the rest) or raises `KeyError`. -/
def dictPop (store : DomainStore) (k : String) : Except PyExc DomainStore :=
  match store with
  | [] => Except.error (PyExc.keyError k)
  | (k', v) :: rest =>
    if k' == k then Except.ok rest
    else
      match dictPop rest k with
      | Except.ok r => Except.ok ((k', v) :: r)
      | Except.error e => Except.error e

/-- `async_unload_entry(hass, config_entry)`: gathers one
`async_forward_entry_unload` result per platform (`unloadResult`), takes
`all(...)`, pops the entry's record from `hass.data[DOMAIN]` only when that
is true, and returns it together with the resulting store. -/
def async_unload_entry (platforms : List String)
    (unloadResult : String → Bool) (store : DomainStore)
    (entry_id : String) : Except PyExc (Bool × DomainStore) :=
  let unload_ok := platforms.all unloadResult
  if unload_ok then
    match dictPop store entry_id with
    | Except.error e => Except.error e
    | Except.ok store2 => Except.ok (true, store2)
  else Except.ok (false, store)

/-! Concrete fixtures: instances of the opaque external library used to
evaluate the definitions on closed inputs. -/

/-- A library whose client's `update()` always raises. -/
def updateErrLib : OpenEVSELib :=
  ⟨fun _ _ _ =>
    { update := Except.error (PyExc.otherExc "connection refused"),
      getattr := fun _ => Except.ok Val.vnone }⟩

/-- A library whose client updates fine but whose every attribute read raises
`AttributeError`. -/
def attrErrLib : OpenEVSELib :=
  ⟨fun _ _ _ =>
    { update := Except.ok (),
      getattr := fun _ => Except.error (PyExc.attributeError "ammeter") }⟩

/-- A library whose client updates fine but whose every attribute read raises
`ValueError` (a class the sensor loop catches). -/
def valueErrLib : OpenEVSELib :=
  ⟨fun _ _ _ =>
    { update := Except.ok (),
      getattr := fun _ => Except.error (PyExc.valueError "bad") }⟩

/-- A library whose client updates fine and returns the integer 5 for every
attribute read. -/
def fiveLib : OpenEVSELib :=
  ⟨fun _ _ _ =>
    { update := Except.ok (),
      getattr := fun _ => Except.ok (Val.vint 5) }⟩

/-- A library whose client updates fine and returns 7 for the attribute
`"amp"` and 9 for every other attribute. -/
def ampLib : OpenEVSELib :=
  ⟨fun _ _ _ =>
    { update := Except.ok (),
      getattr := fun a => if a == "amp" then Except.ok (Val.vint 7)
                          else Except.ok (Val.vint 9) }⟩

/-! Helper lemmas about association lists and the sensor loop. -/

/-- Generic fact: a lookup in an association list succeeds exactly when the
key occurs among the keys. -/
theorem natLookup_isSome (n : Nat) :
    ∀ l : List (Nat × String), ((l.lookup n).isSome = true ↔ n ∈ l.map Prod.fst)
  | [] => by simp [List.lookup]
  | (k, v) :: t => by
    have ih := natLookup_isSome n t
    by_cases h : n = k
    · subst h
      simp [List.lookup]
    · have hb : (n == k) = false := beq_eq_false_iff_ne.mpr h
      simp only [List.lookup, hb, List.map_cons, List.mem_cons]
      rw [ih]
      simp [h]

/-- A key absent from a dict looks up to `none`. -/
theorem lookup_eq_none_of_not_mem (k : String) :
    ∀ d : Dict, k ∉ d.map Prod.fst → d.lookup k = none
  | [], _ => rfl
  | (k', v) :: t, h => by
    have hk : k ≠ k' := fun he => h (by simp [he])
    have ht : k ∉ t.map Prod.fst := fun hm => h (by simp [hm])
    have hb : (k == k') = false := beq_eq_false_iff_ne.mpr hk
    simp [List.lookup, hb, lookup_eq_none_of_not_mem k t ht]

/-- Appending a single binding for a different key does not change a lookup. -/
theorem lookup_append_single_ne (k s : String) (v : Val) :
    ∀ d : Dict, k ≠ s → (d ++ [(s, v)]).lookup k = d.lookup k
  | [], h => by
    have hb : (k == s) = false := beq_eq_false_iff_ne.mpr h
    simp [List.lookup, hb]
  | (k', v') :: t, h => by
    by_cases hk : k = k'
    · subst hk
      simp [List.lookup]
    · have hb : (k == k') = false := beq_eq_false_iff_ne.mpr hk
      simp [List.lookup, hb, lookup_append_single_ne k s v t h]

/-- When `update()` raises, `get_sensors` returns the empty dict. -/
theorem get_sensors_of_update_error (sensor_types : List (String × SensorDescription))
    (lib : OpenEVSELib) (config : ConfigEntry) (e : PyExc)
    (h : (lib.OpenEVSE (dictGet config.data CONF_HOST)
           (dictGet config.data CONF_USERNAME)
           (dictGet config.data CONF_PASSWORD)).update = Except.error e) :
    get_sensors sensor_types lib config = Except.ok [] := by
  unfold get_sensors
  simp only [h]

/-- When `update()` raises, `get_firmware` returns `("", "")`. -/
theorem get_firmware_of_update_error (lib : OpenEVSELib) (config : ConfigEntry)
    (e : PyExc)
    (h : (lib.OpenEVSE (dictGet config.data CONF_HOST)
           (dictGet config.data CONF_USERNAME)
           (dictGet config.data CONF_PASSWORD)).update = Except.error e) :
    get_firmware lib config = Except.ok (Val.vstr "", Val.vstr "") := by
  unfold get_firmware
  simp only [h]

/-- Step of the sensor loop on the special-cased `"current_power"` sensor:
it is assigned `None` without touching the client. -/
theorem sensorsLoop_cons_cp (charger : Charger) (d : SensorDescription)
    (rest : List (String × SensorDescription)) (data : Dict) :
    sensorsLoop charger (("current_power", d) :: rest) data =
      sensorsLoop charger rest (data ++ [("current_power", Val.vnone)]) := by
  simp [sensorsLoop]

/-- Step of the sensor loop on an ordinary sensor whose attribute read
succeeds: the value is recorded. -/
theorem sensorsLoop_cons_ok (charger : Charger) (s : String)
    (d : SensorDescription) (rest : List (String × SensorDescription))
    (data : Dict) (v : Val) (hs : s ≠ "current_power")
    (hga : charger.getattr d.key = Except.ok v) :
    sensorsLoop charger ((s, d) :: rest) data =
      sensorsLoop charger rest (data ++ [(s, v)]) := by
  have hb : (s == "current_power") = false := beq_eq_false_iff_ne.mpr hs
  simp [sensorsLoop, hb, hga]

/-- Step of the sensor loop on an ordinary sensor whose attribute read
raises: a caught class skips the sensor, any other propagates. -/
theorem sensorsLoop_cons_err (charger : Charger) (s : String)
    (d : SensorDescription) (rest : List (String × SensorDescription))
    (data : Dict) (e : PyExc) (hs : s ≠ "current_power")
    (hga : charger.getattr d.key = Except.error e) :
    sensorsLoop charger ((s, d) :: rest) data =
      if caughtInSensorLoop e then sensorsLoop charger rest data
      else Except.error e := by
  have hb : (s == "current_power") = false := beq_eq_false_iff_ne.mpr hs
  simp [sensorsLoop, hb, hga]

/-- The sensor loop only appends bindings for keys taken from the remaining
sensor list: lookups for any other key are unchanged. -/
theorem sensorsLoop_preserves (charger : Charger) :
    ∀ (types : List (String × SensorDescription)) (data out : Dict) (k : String),
      k ∉ types.map Prod.fst → sensorsLoop charger types data = Except.ok out →
      out.lookup k = data.lookup k
  | [], data, out, k, _, h => by
    simp [sensorsLoop] at h
    subst h
    rfl
  | (s, d) :: rest, data, out, k, hk, h => by
    have hks : k ≠ s := fun he => hk (by simp [he])
    have hkr : k ∉ rest.map Prod.fst := fun hm => hk (by simp [hm])
    by_cases hs : s = "current_power"
    · subst hs
      rw [sensorsLoop_cons_cp] at h
      have := sensorsLoop_preserves charger rest
        (data ++ [("current_power", Val.vnone)]) out k hkr h
      rw [this, lookup_append_single_ne k "current_power" Val.vnone data hks]
    · cases hga : charger.getattr d.key with
      | ok v =>
        rw [sensorsLoop_cons_ok charger s d rest data v hs hga] at h
        have := sensorsLoop_preserves charger rest (data ++ [(s, v)]) out k hkr h
        rw [this, lookup_append_single_ne k s v data hks]
      | error e =>
        rw [sensorsLoop_cons_err charger s d rest data e hs hga] at h
        by_cases hc : caughtInSensorLoop e = true
        · rw [if_pos hc] at h
          exact sensorsLoop_preserves charger rest data out k hkr h
        · rw [if_neg (by simpa using hc)] at h
          cases h

/-- The sensor loop only raises exceptions outside the caught classes
`(RequestException, ValueError, KeyError)`, and any exception it raises came
from an attribute read of one of the listed sensors. -/
theorem sensorsLoop_error_not_caught (charger : Charger) :
    ∀ (types : List (String × SensorDescription)) (data : Dict) (e : PyExc),
      sensorsLoop charger types data = Except.error e →
      caughtInSensorLoop e = false ∧
        ∃ p ∈ types, charger.getattr p.2.key = Except.error e
  | [], data, e, h => by simp [sensorsLoop] at h
  | (s, d) :: rest, data, e, h => by
    by_cases hs : s = "current_power"
    · subst hs
      rw [sensorsLoop_cons_cp] at h
      obtain ⟨h1, p, hp, h2⟩ := sensorsLoop_error_not_caught charger rest
        (data ++ [("current_power", Val.vnone)]) e h
      exact ⟨h1, p, by simp [hp], h2⟩
    · cases hga : charger.getattr d.key with
      | ok v =>
        rw [sensorsLoop_cons_ok charger s d rest data v hs hga] at h
        obtain ⟨h1, p, hp, h2⟩ := sensorsLoop_error_not_caught charger rest
          (data ++ [(s, v)]) e h
        exact ⟨h1, p, by simp [hp], h2⟩
      | error e2 =>
        rw [sensorsLoop_cons_err charger s d rest data e2 hs hga] at h
        by_cases hc : caughtInSensorLoop e2 = true
        · rw [if_pos hc] at h
          obtain ⟨h1, p, hp, h2⟩ := sensorsLoop_error_not_caught charger rest
            data e h
          exact ⟨h1, p, by simp [hp], h2⟩
        · rw [if_neg (by simpa using hc)] at h
          cases h
          exact ⟨by simpa using hc, (s, d), by simp, hga⟩

/-- If every attribute error among the listed sensors is of a caught class,
the sensor loop terminates normally. -/
theorem sensorsLoop_ok_of_caught (charger : Charger)
    (types : List (String × SensorDescription)) (data : Dict)
    (h : ∀ p ∈ types, ∀ e, charger.getattr p.2.key = Except.error e →
      caughtInSensorLoop e = true) :
    ∃ out, sensorsLoop charger types data = Except.ok out := by
  cases hres : sensorsLoop charger types data with
  | ok out => exact ⟨out, rfl⟩
  | error e =>
    obtain ⟨h1, p, hp, h2⟩ := sensorsLoop_error_not_caught charger types data e hres
    rw [h p hp e h2] at h1
    cases h1

/-- A lookup skips an appended prefix that does not hold its key. -/
theorem lookup_append_of_not_mem (k : String) :
    ∀ l1 l2 : Dict, k ∉ l1.map Prod.fst → (l1 ++ l2).lookup k = l2.lookup k
  | [], _, _ => rfl
  | (k', v) :: t, l2, h => by
    have hk : k ≠ k' := fun he => h (by simp [he])
    have hb : (k == k') = false := beq_eq_false_iff_ne.mpr hk
    have ht : k ∉ t.map Prod.fst := fun hm => h (by simp [hm])
    simp [List.lookup, hb, lookup_append_of_not_mem k t l2 ht]

/-- The value the sensor loop records for a listed sensor (with distinct
sensor names, as in a dict): `None` for `"current_power"`, otherwise the
value returned by the attribute read when it succeeds. -/
theorem sensorsLoop_lookup (charger : Charger) :
    ∀ (types : List (String × SensorDescription)) (data out : Dict)
      (sensor : String) (desc : SensorDescription),
      (types.map Prod.fst).Nodup → sensor ∉ data.map Prod.fst →
      (sensor, desc) ∈ types → sensorsLoop charger types data = Except.ok out →
      ((sensor = "current_power" → out.lookup sensor = some Val.vnone) ∧
       (sensor ≠ "current_power" → ∀ v, charger.getattr desc.key = Except.ok v →
         out.lookup sensor = some v))
  | [], _, _, _, _, _, _, hmem, _ => absurd hmem (by simp)
  | (s, d) :: rest, data, out, sensor, desc, hnd, hdata, hmem, h => by
    have hndc : (s :: rest.map Prod.fst).Nodup := by simpa using hnd
    have hnd1 : s ∉ rest.map Prod.fst := (List.nodup_cons.mp hndc).1
    have hnd2 : (rest.map Prod.fst).Nodup := (List.nodup_cons.mp hndc).2
    rcases List.mem_cons.mp hmem with hhead | htail
    · rw [Prod.ext_iff] at hhead
      obtain ⟨hsen, hdesc⟩ := hhead
      simp only at hsen hdesc
      subst hsen
      subst hdesc
      by_cases hs : sensor = "current_power"
      · refine ⟨fun _ => ?_, fun hne _ _ => absurd hs hne⟩
        subst hs
        rw [sensorsLoop_cons_cp] at h
        have hpre := sensorsLoop_preserves charger rest
          (data ++ [("current_power", Val.vnone)]) out "current_power" hnd1 h
        rw [hpre, lookup_append_of_not_mem "current_power" data _ hdata]
        simp [List.lookup]
      · refine ⟨fun he => absurd he hs, fun _ v hv => ?_⟩
        rw [sensorsLoop_cons_ok charger sensor desc rest data v hs hv] at h
        have hpre := sensorsLoop_preserves charger rest
          (data ++ [(sensor, v)]) out sensor hnd1 h
        rw [hpre, lookup_append_of_not_mem sensor data _ hdata]
        simp [List.lookup]
    · have hsen_ne : sensor ≠ s := by
        intro he
        exact hnd1 (he ▸ (List.mem_map.mpr ⟨(sensor, desc), htail, rfl⟩))
      by_cases hs : s = "current_power"
      · subst hs
        rw [sensorsLoop_cons_cp] at h
        have hmemr : sensor ∉ (data ++ [("current_power", Val.vnone)]).map Prod.fst := by
          simp only [List.map_append, List.mem_append]
          rintro (hin | hin)
          · exact hdata hin
          · simp at hin
            exact hsen_ne hin
        exact sensorsLoop_lookup charger rest
          (data ++ [("current_power", Val.vnone)]) out sensor desc hnd2 hmemr htail h
      · cases hga : charger.getattr d.key with
        | ok v =>
          rw [sensorsLoop_cons_ok charger s d rest data v hs hga] at h
          have hmemv : sensor ∉ (data ++ [(s, v)]).map Prod.fst := by
            simp only [List.map_append, List.mem_append]
            rintro (hin | hin)
            · exact hdata hin
            · simp at hin
              exact hsen_ne hin
          exact sensorsLoop_lookup charger rest (data ++ [(s, v)]) out
            sensor desc hnd2 hmemv htail h
        | error e =>
          rw [sensorsLoop_cons_err charger s d rest data e hs hga] at h
          by_cases hc : caughtInSensorLoop e = true
          · rw [if_pos hc] at h
            exact sensorsLoop_lookup charger rest data out
              sensor desc hnd2 hdata htail h
          · rw [if_neg (by simpa using hc)] at h
            cases h

/-- Filtering out a key that does not occur leaves the store unchanged. -/
theorem filter_ne_of_not_mem (k : String) :
    ∀ l : DomainStore, k ∉ l.map Prod.fst →
      l.filter (fun q => q.1 != k) = l
  | [], _ => rfl
  | (k', v) :: t, h => by
    have hk : k' ≠ k := fun he => h (by simp [he])
    have hb : (k' != k) = true := bne_iff_ne.mpr hk
    have ht : k ∉ t.map Prod.fst := fun hm => h (by simp [hm])
    simp [List.filter, hb, filter_ne_of_not_mem k t ht]

/-- On a store with distinct keys, `pop` of a present key succeeds and
removes exactly that key's record. -/
theorem dictPop_eq_filter (k : String) :
    ∀ l : DomainStore, k ∈ l.map Prod.fst → (l.map Prod.fst).Nodup →
      dictPop l k = Except.ok (l.filter (fun q => q.1 != k))
  | [], hmem, _ => absurd hmem (by simp)
  | (k', v) :: t, hmem, hnd => by
    have hndc : (k' :: t.map Prod.fst).Nodup := by simpa using hnd
    have hnd1 : k' ∉ t.map Prod.fst := (List.nodup_cons.mp hndc).1
    have hnd2 : (t.map Prod.fst).Nodup := (List.nodup_cons.mp hndc).2
    by_cases hk : k' = k
    · subst hk
      have hbne : (k' != k') = false := by simp
      simp [dictPop, List.filter, hbne, filter_ne_of_not_mem k' t hnd1]
    · have hb : (k' == k) = false := beq_eq_false_iff_ne.mpr hk
      have hbne : (k' != k) = true := bne_iff_ne.mpr hk
      have hmem2 : k ∈ t.map Prod.fst := by
        rcases (by simpa using hmem : k = k' ∨ k ∈ t.map Prod.fst) with he | hm
        · exact absurd he.symm hk
        · exact hm
      simp [dictPop, hb, List.filter, hbne, dictPop_eq_filter k t hmem2 hnd2]

/-- `get_sensors` factors through the client built from the entry data. -/
theorem get_sensors_eq_from_charger
    (sensor_types : List (String × SensorDescription)) (lib : OpenEVSELib)
    (config : ConfigEntry) :
    get_sensors sensor_types lib config =
      get_sensors_from_charger sensor_types
        (lib.OpenEVSE (dictGet config.data CONF_HOST)
          (dictGet config.data CONF_USERNAME)
          (dictGet config.data CONF_PASSWORD)) := rfl

/-- `get_firmware` factors through the client built from the entry data. -/
theorem get_firmware_eq_from_charger (lib : OpenEVSELib) (config : ConfigEntry) :
    get_firmware lib config =
      get_firmware_from_charger
        (lib.OpenEVSE (dictGet config.data CONF_HOST)
          (dictGet config.data CONF_USERNAME)
          (dictGet config.data CONF_PASSWORD)) := rfl

/-! The claims. -/

/-- C1: for every command string, `send_command` returns `None` iff the
handler echoes the command back with a response other than `"$NK^21"`, raises
`InvalidValue` iff the command is echoed with response `"$NK^21"`, and raises
`CommandFailed` iff the echoed cmd differs from the command; no other outcome
is possible. -/
theorem claim1_send_command_trichotomy (handler : String → String × String)
    (command : String) :
    (send_command handler command = Except.ok () ↔
      (handler command).1 = command ∧ (handler command).2 ≠ "$NK^21") ∧
    (send_command handler command = Except.error CommandError.InvalidValue ↔
      (handler command).1 = command ∧ (handler command).2 = "$NK^21") ∧
    (send_command handler command = Except.error CommandError.CommandFailed ↔
      (handler command).1 ≠ command) := by
  unfold send_command
  by_cases h1 : (handler command).1 = command
  · by_cases h2 : (handler command).2 = "$NK^21"
    · simp [h1, h2]
    · simp [h1, h2]
  · simp [h1]

/-- C2: if the client's `update()` raises, `get_sensors` returns `{}` and
`get_firmware` returns `("", "")`; neither lets the exception propagate. -/
theorem claim2_update_exception_swallowed
    (sensor_types : List (String × SensorDescription)) (lib : OpenEVSELib)
    (config : ConfigEntry) (e : PyExc)
    (h : (lib.OpenEVSE (dictGet config.data CONF_HOST)
           (dictGet config.data CONF_USERNAME)
           (dictGet config.data CONF_PASSWORD)).update = Except.error e) :
    get_sensors sensor_types lib config = Except.ok [] ∧
    get_firmware lib config = Except.ok (Val.vstr "", Val.vstr "") :=
  ⟨get_sensors_of_update_error sensor_types lib config e h,
   get_firmware_of_update_error lib config e h⟩

/-- Witness for C2 at a concrete failing client. -/
theorem claim2_witness :
    (updateErrLib.OpenEVSE (dictGet ([] : Dict) CONF_HOST)
        (dictGet ([] : Dict) CONF_USERNAME)
        (dictGet ([] : Dict) CONF_PASSWORD)).update =
      Except.error (PyExc.otherExc "connection refused") ∧
    (get_sensors [] updateErrLib ⟨[], [], "entry1"⟩ = Except.ok [] ∧
     get_firmware updateErrLib ⟨[], [], "entry1"⟩ =
       Except.ok (Val.vstr "", Val.vstr "")) :=
  ⟨rfl, claim2_update_exception_swallowed [] updateErrLib ⟨[], [], "entry1"⟩
    (PyExc.otherExc "connection refused") rfl⟩

/-- C3 as stated is false: the loop catches only `RequestException`,
`ValueError` and `KeyError`; here an `AttributeError` raised while reading a
sensor's value propagates out of `get_sensors` even though `update()`
succeeded. -/
theorem claim3_counterexample :
    (attrErrLib.OpenEVSE (dictGet ([] : Dict) CONF_HOST)
        (dictGet ([] : Dict) CONF_USERNAME)
        (dictGet ([] : Dict) CONF_PASSWORD)).update = Except.ok () ∧
    get_sensors [("charging_status", ⟨"status"⟩)] attrErrLib
        ⟨[], [], "entry1"⟩ = Except.error (PyExc.attributeError "ammeter") :=
  ⟨rfl, rfl⟩

/-- C3 (amended): an exception of one of the caught classes
(`RequestException`, `ValueError`, `KeyError`) raised while reading a
sensor's value is caught inside the loop — the sensor is skipped and the
remaining sensors are still processed; `get_sensors` only raises exceptions
outside those classes, and when every attribute error is of a caught class it
returns normally. -/
theorem claim3_loop_catches_listed_classes
    (sensor_types : List (String × SensorDescription)) (lib : OpenEVSELib)
    (config : ConfigEntry) (sensor : String) (desc : SensorDescription)
    (rest : List (String × SensorDescription)) (data : Dict) (e : PyExc) :
    (sensor ≠ "current_power" →
      (lib.OpenEVSE (dictGet config.data CONF_HOST)
        (dictGet config.data CONF_USERNAME)
        (dictGet config.data CONF_PASSWORD)).getattr desc.key =
          Except.error e →
      caughtInSensorLoop e = true →
      sensorsLoop (lib.OpenEVSE (dictGet config.data CONF_HOST)
        (dictGet config.data CONF_USERNAME)
        (dictGet config.data CONF_PASSWORD)) ((sensor, desc) :: rest) data =
      sensorsLoop (lib.OpenEVSE (dictGet config.data CONF_HOST)
        (dictGet config.data CONF_USERNAME)
        (dictGet config.data CONF_PASSWORD)) rest data) ∧
    (∀ e2, get_sensors sensor_types lib config = Except.error e2 →
      caughtInSensorLoop e2 = false) ∧
    ((∀ q ∈ sensor_types, ∀ e2,
        (lib.OpenEVSE (dictGet config.data CONF_HOST)
          (dictGet config.data CONF_USERNAME)
          (dictGet config.data CONF_PASSWORD)).getattr q.2.key =
            Except.error e2 →
        caughtInSensorLoop e2 = true) →
      ∃ out, get_sensors sensor_types lib config = Except.ok out) := by
  refine ⟨fun hne hga hc => ?_, fun e2 h2 => ?_, fun hall => ?_⟩
  · rw [sensorsLoop_cons_err _ sensor desc rest data e hne hga, if_pos hc]
  · rw [get_sensors_eq_from_charger] at h2
    unfold get_sensors_from_charger at h2
    cases hu : (lib.OpenEVSE (dictGet config.data CONF_HOST)
        (dictGet config.data CONF_USERNAME)
        (dictGet config.data CONF_PASSWORD)).update with
    | error e3 =>
      rw [hu] at h2
      cases h2
    | ok _ =>
      rw [hu] at h2
      exact (sensorsLoop_error_not_caught _ sensor_types [] e2 h2).1
  · rw [get_sensors_eq_from_charger]
    unfold get_sensors_from_charger
    cases hu : (lib.OpenEVSE (dictGet config.data CONF_HOST)
        (dictGet config.data CONF_USERNAME)
        (dictGet config.data CONF_PASSWORD)).update with
    | error e3 => exact ⟨[], rfl⟩
    | ok _ => exact sensorsLoop_ok_of_caught _ sensor_types [] hall

/-- Witness for C3 (amended) at a concrete client whose attribute reads all
raise `ValueError`: the failing sensor is skipped and `get_sensors` still
returns normally. -/
theorem claim3_witness :
    sensorsLoop (valueErrLib.OpenEVSE (dictGet ([] : Dict) CONF_HOST)
        (dictGet ([] : Dict) CONF_USERNAME) (dictGet ([] : Dict) CONF_PASSWORD))
      [("amp_sensor", ⟨"amp"⟩)] [] =
      sensorsLoop (valueErrLib.OpenEVSE (dictGet ([] : Dict) CONF_HOST)
        (dictGet ([] : Dict) CONF_USERNAME) (dictGet ([] : Dict) CONF_PASSWORD))
        [] [] ∧
    ∃ out, get_sensors [("amp_sensor", ⟨"amp"⟩)] valueErrLib
      ⟨[], [], "entry1"⟩ = Except.ok out := by
  have h := claim3_loop_catches_listed_classes [("amp_sensor", ⟨"amp"⟩)]
    valueErrLib ⟨[], [], "entry1"⟩ "amp_sensor" ⟨"amp"⟩ [] []
    (PyExc.valueError "bad")
  refine ⟨h.1 (by decide) rfl rfl, h.2.2 ?_⟩
  intro q hq e2 he
  injection he with he2
  rw [← he2]
  rfl

/-- C4: the `states` table is the fixed mapping with domain exactly
`{0, …, 10, 254, 255}` and the listed descriptions (being a Lean constant,
nothing can modify it). -/
theorem claim4_states_table :
    (∀ n : Nat, (states.lookup n).isSome = true ↔
      n ∈ [0, 1, 2, 3, 4, 5, 6, 7, 8, 9, 10, 254, 255]) ∧
    states.lookup 0 = some "unknown" ∧
    states.lookup 1 = some "not connected" ∧
    states.lookup 2 = some "connected" ∧
    states.lookup 3 = some "charging" ∧
    states.lookup 4 = some "vent required" ∧
    states.lookup 5 = some "diode check failed" ∧
    states.lookup 6 = some "gfci fault" ∧
    states.lookup 7 = some "no ground" ∧
    states.lookup 8 = some "stuck relay" ∧
    states.lookup 9 = some "gfci self-test failure" ∧
    states.lookup 10 = some "over temperature" ∧
    states.lookup 254 = some "sleeping" ∧
    states.lookup 255 = some "disabled" := by
  refine ⟨fun n => ?_, rfl, rfl, rfl, rfl, rfl, rfl, rfl, rfl, rfl, rfl, rfl,
    rfl, rfl⟩
  have hkeys : states.map Prod.fst =
      [0, 1, 2, 3, 4, 5, 6, 7, 8, 9, 10, 254, 255] := rfl
  rw [natLookup_isSome n states, hkeys]

/-- C5 as stated is false: the loop special-cases `"current_power"`, storing
`None` instead of the attribute value — here the attribute reads as `5` but
`get_sensors` records `None`. -/
theorem claim5_counterexample :
    (fiveLib.OpenEVSE (dictGet ([] : Dict) CONF_HOST)
        (dictGet ([] : Dict) CONF_USERNAME)
        (dictGet ([] : Dict) CONF_PASSWORD)).getattr "charging_power" =
      Except.ok (Val.vint 5) ∧
    get_sensors [("current_power", ⟨"charging_power"⟩)] fiveLib
        ⟨[], [], "entry1"⟩ = Except.ok [("current_power", Val.vnone)] ∧
    Val.vnone ≠ Val.vint 5 :=
  ⟨rfl, rfl, by decide⟩

/-- C5 (amended): for every sensor name in `SENSOR_TYPES` other than
`"current_power"`, when the update succeeds and the attribute lookup returns
a value, `get_sensors` associates with that name exactly
`getattr(charger, SENSOR_TYPES[sensor].key)`; with `"current_power"` it
associates `None`. -/
theorem claim5_sensor_value_is_attribute
    (sensor_types : List (String × SensorDescription)) (lib : OpenEVSELib)
    (config : ConfigEntry) (out : Dict) (sensor : String)
    (desc : SensorDescription)
    (hnd : (sensor_types.map Prod.fst).Nodup)
    (hmem : (sensor, desc) ∈ sensor_types)
    (hupd : (lib.OpenEVSE (dictGet config.data CONF_HOST)
      (dictGet config.data CONF_USERNAME)
      (dictGet config.data CONF_PASSWORD)).update = Except.ok ())
    (hok : get_sensors sensor_types lib config = Except.ok out) :
    (sensor = "current_power" → out.lookup sensor = some Val.vnone) ∧
    (sensor ≠ "current_power" → ∀ v,
      (lib.OpenEVSE (dictGet config.data CONF_HOST)
        (dictGet config.data CONF_USERNAME)
        (dictGet config.data CONF_PASSWORD)).getattr desc.key =
          Except.ok v →
      out.lookup sensor = some v) := by
  rw [get_sensors_eq_from_charger] at hok
  unfold get_sensors_from_charger at hok
  rw [hupd] at hok
  exact sensorsLoop_lookup _ sensor_types [] out sensor desc hnd (by simp)
    hmem hok

/-- Witness for C5 (amended): an ordinary sensor gets its attribute value,
`"current_power"` gets `None`. -/
theorem claim5_witness :
    get_sensors [("amp_sensor", ⟨"amp"⟩), ("current_power", ⟨"power"⟩)] ampLib
        ⟨[], [], "entry1"⟩ =
      Except.ok [("amp_sensor", Val.vint 7), ("current_power", Val.vnone)] ∧
    ([("amp_sensor", Val.vint 7), ("current_power", Val.vnone)] : Dict).lookup
        "amp_sensor" = some (Val.vint 7) ∧
    ([("amp_sensor", Val.vint 7), ("current_power", Val.vnone)] : Dict).lookup
        "current_power" = some Val.vnone := by
  have ha := claim5_sensor_value_is_attribute
    [("amp_sensor", ⟨"amp"⟩), ("current_power", ⟨"power"⟩)] ampLib
    ⟨[], [], "entry1"⟩
    [("amp_sensor", Val.vint 7), ("current_power", Val.vnone)]
    "amp_sensor" ⟨"amp"⟩ (by decide) (by decide) rfl rfl
  have hc := claim5_sensor_value_is_attribute
    [("amp_sensor", ⟨"amp"⟩), ("current_power", ⟨"power"⟩)] ampLib
    ⟨[], [], "entry1"⟩
    [("amp_sensor", Val.vint 7), ("current_power", Val.vnone)]
    "current_power" ⟨"power"⟩ (by decide) (by decide) rfl rfl
  exact ⟨rfl, ha.2 (by decide) (Val.vint 7) rfl, hc.1 rfl⟩

/-- C6: `get_firmware` and `get_sensors` act on the client constructed with
exactly the host, username and password read from the entry data, and
`connect` passes its three arguments through unchanged. -/
theorem claim6_credentials_passthrough (lib : OpenEVSELib)
    (config : ConfigEntry) (sensor_types : List (String × SensorDescription))
    (h u p : Val) :
    get_firmware lib config =
      get_firmware_from_charger
        (lib.OpenEVSE (dictGet config.data CONF_HOST)
          (dictGet config.data CONF_USERNAME)
          (dictGet config.data CONF_PASSWORD)) ∧
    get_sensors sensor_types lib config =
      get_sensors_from_charger sensor_types
        (lib.OpenEVSE (dictGet config.data CONF_HOST)
          (dictGet config.data CONF_USERNAME)
          (dictGet config.data CONF_PASSWORD)) ∧
    connect lib h u p = lib.OpenEVSE h u p :=
  ⟨rfl, rfl, rfl⟩

/-- C7: after `update_listener` runs, the entry's data equals its options;
when they already agree the entry is returned unchanged with no reload, and
otherwise data is replaced by a copy of options and the entry is reloaded. -/
theorem claim7_data_options_consistency (config_entry : ConfigEntry) :
    ((update_listener config_entry).1.data =
      (update_listener config_entry).1.options) ∧
    (config_entry.data = config_entry.options →
      update_listener config_entry = (config_entry, false)) ∧
    (config_entry.data ≠ config_entry.options →
      update_listener config_entry =
        ({ config_entry with data := config_entry.options }, true)) := by
  by_cases h : config_entry.data = config_entry.options
  · simp [update_listener, h]
  · simp [update_listener, h]

/-- Witness for C7 at an entry whose data and options differ. -/
theorem claim7_witness :
    update_listener ⟨[("host", Val.vstr "a")], [("host", Val.vstr "b")], "e"⟩ =
      (⟨[("host", Val.vstr "b")], [("host", Val.vstr "b")], "e"⟩, true) :=
  (claim7_data_options_consistency _).2.2 (by decide)

/-- C8: `_async_update_data` raises `UpdateFailed` exactly when the executor
job running `get_sensors` raises; a normal result is returned unchanged, and
an unreachable device (failing `update()`) yields the empty result rather
than an exception. -/
theorem claim8_update_failed_iff
    (sensor_types : List (String × SensorDescription)) (lib : OpenEVSELib)
    (config : ConfigEntry) :
    (∀ e, coordinator_async_update_data sensor_types lib config =
        Except.error (CoordinatorError.UpdateFailed e) ↔
      get_sensors sensor_types lib config = Except.error e) ∧
    (∀ d, get_sensors sensor_types lib config = Except.ok d →
      coordinator_async_update_data sensor_types lib config = Except.ok d) ∧
    (∀ e, (lib.OpenEVSE (dictGet config.data CONF_HOST)
        (dictGet config.data CONF_USERNAME)
        (dictGet config.data CONF_PASSWORD)).update = Except.error e →
      coordinator_async_update_data sensor_types lib config =
        Except.ok []) := by
  refine ⟨fun e => ?_, fun d hd => ?_, fun e he => ?_⟩
  · unfold coordinator_async_update_data
    cases hg : get_sensors sensor_types lib config with
    | ok d => simp
    | error e2 => simp
  · unfold coordinator_async_update_data
    rw [hd]
  · unfold coordinator_async_update_data
    rw [get_sensors_of_update_error sensor_types lib config e he]

/-- Witness for C8: an uncaught `AttributeError` from the job surfaces as
`UpdateFailed`. -/
theorem claim8_witness :
    get_sensors [("amp_sensor", ⟨"amp"⟩)] attrErrLib ⟨[], [], "entry1"⟩ =
      Except.error (PyExc.attributeError "ammeter") ∧
    coordinator_async_update_data [("amp_sensor", ⟨"amp"⟩)] attrErrLib
        ⟨[], [], "entry1"⟩ =
      Except.error (CoordinatorError.UpdateFailed
        (PyExc.attributeError "ammeter")) :=
  ⟨rfl, ((claim8_update_failed_iff [("amp_sensor", ⟨"amp"⟩)] attrErrLib
    ⟨[], [], "entry1"⟩).1 (PyExc.attributeError "ammeter")).mpr rfl⟩

/-- C9: `async_setup_entry` always builds the coordinator with the fixed
interval 10, and the coordinator stores `update_interval =
timedelta(seconds=10)` regardless of the entry's data or options. -/
theorem claim9_fixed_ten_second_interval (config_entry : ConfigEntry) :
    async_setup_entry_coordinator config_entry =
      coordinatorInit 10 config_entry ∧
    (async_setup_entry_coordinator config_entry).update_interval =
      { seconds := 10 } ∧
    (async_setup_entry_coordinator config_entry).interval =
      { seconds := 10 } :=
  ⟨rfl, rfl, rfl⟩

/-- C10: `async_unload_entry` returns `True` iff every platform unload
succeeds; on success the entry's record is removed from the store, on
failure the store is left unchanged. -/
theorem claim10_unload_atomic (platforms : List String)
    (unloadResult : String → Bool) (store : DomainStore) (entry_id : String)
    (h1 : entry_id ∈ store.map Prod.fst)
    (h2 : (store.map Prod.fst).Nodup) :
    async_unload_entry platforms unloadResult store entry_id =
      Except.ok (platforms.all unloadResult,
        if platforms.all unloadResult then
          store.filter (fun q => q.1 != entry_id)
        else store) := by
  unfold async_unload_entry
  by_cases hall : platforms.all unloadResult = true
  · simp [hall, dictPop_eq_filter entry_id store h1 h2]
  · have hb : platforms.all unloadResult = false := by simpa using hall
    simp [hb]

/-- Witness for C10: a store holding one entry; all platforms unload, so the
record is removed and `True` returned. -/
theorem claim10_witness :
    "entry1" ∈ ([("entry1", coordinatorInit 10 ⟨[], [], "entry1"⟩)] :
      DomainStore).map Prod.fst ∧
    async_unload_entry ["sensor"] (fun _ => true)
        [("entry1", coordinatorInit 10 ⟨[], [], "entry1"⟩)] "entry1" =
      Except.ok (true, []) := by
  refine ⟨by decide, ?_⟩
  have h := claim10_unload_atomic ["sensor"] (fun _ => true)
    [("entry1", coordinatorInit 10 ⟨[], [], "entry1"⟩)] "entry1"
    (by decide) (by decide)
  exact h

end OpenEVSEComponent
